import Mathlib

/-!
Verification development for the realtime-api call-session controller
(`server.js`, `lib/callTransfer.js`).  The JavaScript source is embedded
shallowly: pure logic becomes Lean functions, the shared mutable sets/maps
(`greetedCalls`, `activeFunctionHandlers`, `callStates`) become an explicit
`ServerState` threaded through the handlers, and network I/O is captured by
environment parameters (HTTP statuses per attempt, WebSocket fates) plus a
trace of outbound actions.  Node's `crypto.createHmac("sha256", ...)` is an
external library primitive and is modelled as an abstract keyed-digest
parameter `hmacB64 : List Nat → String → String` (secret bytes and payload
to base64 digest string); everything else follows the source line by line.
-/

namespace RealtimeApi

/-! ## Signature verification (`server.js` 423-466)

`req.get(h)` returns the header or `undefined`; JavaScript treats both
`undefined` and the empty string as falsy, so headers are `Option String`
and presence is "some and nonempty". -/

/-- JS truthiness of an optional header string: present and nonempty. -/
def headerPresent (o : Option String) : Bool :=
  match o with
  | some s => s ≠ ""
  | none => false

/-- Value of a base64 alphabet character, `none` for non-alphabet characters
(Node's `Buffer.from(s, "base64")` skips those, including `=` padding). -/
def base64Val (c : Char) : Option Nat :=
  if 65 ≤ c.toNat ∧ c.toNat ≤ 90 then some (c.toNat - 65)
  else if 97 ≤ c.toNat ∧ c.toNat ≤ 122 then some (c.toNat - 97 + 26)
  else if 48 ≤ c.toNat ∧ c.toNat ≤ 57 then some (c.toNat - 48 + 52)
  else if c = '+' then some 62
  else if c = '/' then some 63
  else none

/-- Regroup 6-bit base64 values into 8-bit bytes; a trailing group of 3, 2 or
1 values yields 2, 1 or 0 bytes, as Node does. -/
def base64Bytes : List Nat → List Nat
  | a :: b :: c :: d :: rest =>
      (a * 4 + b / 16) :: ((b % 16) * 16 + c / 4) :: ((c % 4) * 64 + d) :: base64Bytes rest
  | [a, b, c] => [a * 4 + b / 16, (b % 16) * 16 + c / 4]
  | [a, b] => [a * 4 + b / 16]
  | [_] => []
  | [] => []

/-- Model of `Buffer.from(secretString, "base64")` — decode to bytes. -/
def base64Decode (s : String) : List Nat :=
  base64Bytes (s.data.filterMap base64Val)

/-- JS `String.prototype.split` with a one-character separator: retains
empty fields, and splitting the empty string yields `[""]`. -/
def splitOnChar (sep : Char) : List Char → List (List Char)
  | [] => [[]]
  | c :: rest =>
    match splitOnChar sep rest with
    | [] => [[c]]
    | g :: gs => if c = sep then [] :: g :: gs else (c :: g) :: gs

def jsSplit (sep : Char) (s : String) : List String :=
  (splitOnChar sep s.data).map String.mk

/-- The whitespace characters relevant to `String.prototype.trim` here. -/
def isWsChar (c : Char) : Bool :=
  c = ' ' ∨ c = '\t' ∨ c = '\n' ∨ c = '\r'

/-- JS `String.prototype.trim`: strip whitespace from both ends. -/
def jsTrim (s : String) : String :=
  String.mk (((s.data.dropWhile isWsChar).reverse.dropWhile isWsChar).reverse)

/-- Model of `process.env.OPENAI_WEBHOOK_SECRET?.replace(/^whsec_/, "")`: the secret
string after stripping one leading `whsec_`, or `""` when unset (both the
unset and empty outcomes are falsy in the source's `if (!secretString)`). -/
def secretStringOf (secretEnv : Option String) : String :=
  match secretEnv with
  | none => ""
  | some s =>
    if s.data.take 6 = "whsec_".data then String.mk (s.data.drop 6) else s

/-- The canonical signing string `webhookId + "." + timestamp + "." + rawBody`. -/
def mkPayload (webhookId timestamp rawBody : String) : String :=
  webhookId ++ "." ++ timestamp ++ "." ++ rawBody

/-- Model of `signatureHeader.split(" ").flatMap(s => { const parts = s.trim().split(",");
return parts.length > 1 ? parts.slice(1) : parts; })`. -/
def parseSigs (header : String) : List String :=
  (jsSplit ' ' header).flatMap fun s =>
    let parts := jsSplit ',' (jsTrim s)
    if parts.length > 1 then parts.drop 1 else parts

/-- The inbound control-plane request, as the verifier sees it. -/
structure WebhookReq where
  webhookId : Option String
  timestamp : Option String
  signatureHeader : Option String
  rawBody : String
  evType : String
  dataCallId : Option String
  dataSessionTools : Bool
deriving DecidableEq

/-- Model of `verifySignature(req)` (`server.js` 423-466): header presence check,
payload assembly, secret stripping/decoding, HMAC digest, and membership of
the digest among the parsed signature values. -/
def verifySignature (hmacB64 : List Nat → String → String)
    (secretEnv : Option String) (req : WebhookReq) : Bool :=
  if headerPresent req.signatureHeader ∧ headerPresent req.timestamp ∧
      headerPresent req.webhookId then
    let payload := mkPayload (req.webhookId.getD "") (req.timestamp.getD "") req.rawBody
    let secretString := secretStringOf secretEnv
    if secretString = "" then false
    else
      let secret := base64Decode secretString
      let expected := hmacB64 secret payload
      (parseSigs (req.signatureHeader.getD "")).contains expected
  else false

/-! ## Shared server state (`server.js` 369-371)

`greetedCalls` and `activeFunctionHandlers` are JS `Set`s, `callStates` a JS
`Map`; membership-preserving list encodings with idempotent add and replace
semantics. -/

/-- Per-call metadata stored in `callStates` on function-stream open. -/
structure CallState where
  started : Nat
  lastActivity : Nat
  messageCount : Nat
  interrupted : Bool
deriving DecidableEq

/-- The process-wide mutable state. -/
structure ServerState where
  greetedCalls : List String
  activeFunctionHandlers : List String
  callStates : List (String × CallState)
deriving DecidableEq

/-- JS `Set.add`: idempotent insert. -/
def setAdd (s : List String) (x : String) : List String :=
  if s.contains x then s else x :: s

/-- JS `Set.delete`: remove every occurrence. -/
def setDel (s : List String) (x : String) : List String :=
  s.filter fun y => y != x

/-- JS `Map.set`: bind `k`, replacing any previous binding. -/
def mapSet (m : List (String × CallState)) (k : String) (v : CallState) :
    List (String × CallState) :=
  (k, v) :: m.filter fun p => p.1 != k

/-- JS `Map.delete`. -/
def mapDel (m : List (String × CallState)) (k : String) : List (String × CallState) :=
  m.filter fun p => p.1 != k

/-- Keys of the `callStates` map. -/
def mapKeys (m : List (String × CallState)) : List String :=
  m.map Prod.fst

/-- Environment of externally determined outcomes: the HTTP status the accept
fetch returns on the n-th attempt, whether the greeting WebSocket reaches its
`open` event (versus error/timeout), whether the function WebSocket reaches
`open`, and the clock value used for `Date.now()`. -/
structure Env where
  acceptResp : Nat → Nat
  greetingOk : Bool
  functionOpenOk : Bool
  now : Nat

/-- Outbound effects recorded by the handlers. -/
inductive Action where
  | acceptAttempt (callId : String) (attempt : Nat)
  | acceptWait (ms : Nat)
  | functionStreamOpen (callId : String)
  | greetingConnect (callId : String)
deriving DecidableEq

/-- Model of `node-fetch` `response.ok`: status in `[200, 300)`. -/
def respOk (status : Nat) : Bool :=
  decide (200 ≤ status ∧ status < 300)

/-! ## Model of `acceptCall` (`server.js` 489-548)

`for (let attempt = 1; attempt <= retries; attempt++)`: each iteration
performs one fetch; a 2xx response returns; a 404 with `attempt < retries`
sleeps 500 ms and continues; anything else throws.  The trace records the
attempts and sleeps in order.  Falling off the loop (possible only with
`retries = 0`) returns `undefined`, not an exception. -/

inductive AcceptEv where
  | attempt (n : Nat)
  | wait (ms : Nat)
deriving DecidableEq

inductive AcceptResult where
  | ok (attempts : Nat) (tr : List AcceptEv)
  | err (status : Nat) (tr : List AcceptEv)
  | undef (tr : List AcceptEv)
deriving DecidableEq

/-- The accept retry loop, fuelled by the number of remaining iterations. -/
def acceptGo (resp : Nat → Nat) (retries : Nat) :
    Nat → Nat → List AcceptEv → AcceptResult
  | 0, _, tr => AcceptResult.undef tr
  | Nat.succ fuel, attempt, tr =>
    if attempt ≤ retries then
      if respOk (resp attempt) then
        AcceptResult.ok attempt (tr ++ [AcceptEv.attempt attempt])
      else if resp attempt = 404 ∧ attempt < retries then
        acceptGo resp retries fuel (attempt + 1)
          (tr ++ [AcceptEv.attempt attempt, AcceptEv.wait 500])
      else AcceptResult.err (resp attempt) (tr ++ [AcceptEv.attempt attempt])
    else AcceptResult.undef tr

/-- Model of `acceptCall(callId, instructions, retries = 3)`; the status of the n-th
fetch is `resp n`. -/
def acceptCall (resp : Nat → Nat) (retries : Nat) : AcceptResult :=
  acceptGo resp retries retries 1 []

/-! ## Model of `triggerGreeting` (`server.js` 550-648)

The prefix up to the first `await` runs synchronously in one tick: falsy
callId check, `greetedCalls.has` check, and the optimistic `greetedCalls.add`.
The later WebSocket either opens (greeting sent, flag kept) or fails by error
or connection timeout (flag rolled back by `greetedCalls.delete`); in both
cases the connection was attempted. -/

inductive GreetingOutcome where
  | noCallId
  | alreadyGreeted
  | sent
  | failed
deriving DecidableEq

/-- The atomic synchronous prefix of `triggerGreeting`, acting on the
`greetedCalls` set only: the phase a trigger reaches, and the set after it. -/
inductive GreetPhase where
  | skipNoId
  | skipAlready
  | proceed
deriving DecidableEq

def greetingCheckAndSet (callId : Option String) (g : List String) :
    GreetPhase × List String :=
  match callId with
  | none => (GreetPhase.skipNoId, g)
  | some cid =>
    if cid = "" then (GreetPhase.skipNoId, g)
    else if g.contains cid then (GreetPhase.skipAlready, g)
    else (GreetPhase.proceed, setAdd g cid)

/-- Runs `n` greeting triggers for the same callId fired within one tick: their
atomic prefixes run back to back (JS is single-threaded). Returns the phases
in firing order and the final `greetedCalls` set. -/
def runTriggers (callId : Option String) : Nat → List String → List GreetPhase × List String
  | 0, g => ([], g)
  | Nat.succ n, g =>
    let r := greetingCheckAndSet callId g
    let rest := runTriggers callId n r.2
    (r.1 :: rest.1, rest.2)

/-- Whole-trigger semantics, including the asynchronous connection attempt
and the rollback on failure. -/
def triggerGreeting (env : Env) (callId : Option String) (s : ServerState) :
    GreetingOutcome × ServerState × List Action :=
  match callId with
  | none => (GreetingOutcome.noCallId, s, [])
  | some cid =>
    if cid = "" then (GreetingOutcome.noCallId, s, [])
    else if s.greetedCalls.contains cid then (GreetingOutcome.alreadyGreeted, s, [])
    else
      let s1 : ServerState := { s with greetedCalls := setAdd s.greetedCalls cid }
      if env.greetingOk then
        (GreetingOutcome.sent, s1, [Action.greetingConnect cid])
      else
        (GreetingOutcome.failed,
          { s1 with greetedCalls := setDel s1.greetedCalls cid },
          [Action.greetingConnect cid])

/-! ## Model of `startFunctionHandler` (`server.js` 696-721)

Guard keyed by `activeFunctionHandlers`; on launch the handler's WebSocket is
created, and on its `open` event `callStates` gains the call's entry.  The
model captures the state while the launched handler is live (the `.finally`
removal fires only when the handler's promise settles). -/

def initialCallState (now : Nat) : CallState :=
  { started := now, lastActivity := now, messageCount := 0, interrupted := false }

def startFunctionHandler (env : Env) (callId : Option String) (s : ServerState) :
    ServerState × List Action :=
  match callId with
  | none => (s, [])
  | some cid =>
    if cid = "" then (s, [])
    else if s.activeFunctionHandlers.contains cid then (s, [])
    else
      let s1 : ServerState :=
        { s with activeFunctionHandlers := setAdd s.activeFunctionHandlers cid }
      if env.functionOpenOk then
        ({ s1 with callStates := mapSet s1.callStates cid (initialCallState env.now) },
          [Action.functionStreamOpen cid])
      else (s1, [Action.functionStreamOpen cid])

/-! ## Model of `handleIncomingCall` (`server.js` 650-694) and the endpoint
(`server.js` 942-1004) -/

structure HttpResp where
  status : Nat
  body : String
deriving DecidableEq

/-- Label accept-loop events with the callId used in the accept URL
(`undefined` stringifies into the URL when `call_id` is absent). -/
def acceptTraceActions (cid : String) (tr : List AcceptEv) : List Action :=
  tr.map fun e =>
    match e with
    | AcceptEv.attempt n => Action.acceptAttempt cid n
    | AcceptEv.wait ms => Action.acceptWait ms

/-- Model of `handleIncomingCall(data, res)`: accept (3 retries), then launch the
function handler and fire the greeting without awaiting it; any accept
exception yields a 500.  An `undefined` loop fall-through is not an exception
and proceeds like a success. -/
def handleIncomingCall (env : Env) (dataCallId : Option String) (s : ServerState) :
    HttpResp × ServerState × List Action :=
  let cidStr := dataCallId.getD "undefined"
  match acceptCall env.acceptResp 3 with
  | AcceptResult.err _ tr =>
      (⟨500, "Accept failed"⟩, s, acceptTraceActions cidStr tr)
  | AcceptResult.ok _ tr =>
      let f := startFunctionHandler env dataCallId s
      let g := triggerGreeting env dataCallId f.1
      (⟨200, "ok"⟩, g.2.1, acceptTraceActions cidStr tr ++ f.2 ++ g.2.2)
  | AcceptResult.undef tr =>
      let f := startFunctionHandler env dataCallId s
      let g := triggerGreeting env dataCallId f.1
      (⟨200, "ok"⟩, g.2.1, acceptTraceActions cidStr tr ++ f.2 ++ g.2.2)

/-- The four terminal control events (`server.js` 963-968). -/
def cleanupEvents : List String :=
  ["realtime.call.ended", "realtime.call.failed",
   "realtime.call.disconnected", "realtime.call.participant.disconnected"]

/-- Model of `app.post("/openai-webhook")` (`server.js` 942-1004): verify, dispatch on
event type, clean up on terminal events, acknowledge everything else. -/
def openaiWebhook (hmacB64 : List Nat → String → String) (secretEnv : Option String)
    (env : Env) (req : WebhookReq) (s : ServerState) :
    HttpResp × ServerState × List Action :=
  if verifySignature hmacB64 secretEnv req = true then
    if req.evType = "realtime.call.incoming" then
      handleIncomingCall env req.dataCallId s
    else
      let su :=
        if req.evType = "realtime.session.updated" ∧ req.dataSessionTools then
          startFunctionHandler env req.dataCallId s
        else (s, [])
      if cleanupEvents.contains req.evType then
        match req.dataCallId with
        | some cid =>
            (⟨200, "ok"⟩,
              { su.1 with greetedCalls := setDel su.1.greetedCalls cid,
                          callStates := mapDel su.1.callStates cid },
              su.2)
        | none => (⟨200, "ok"⟩, su.1, su.2)
      else (⟨200, "ok"⟩, su.1, su.2)
  else (⟨401, "invalid signature"⟩, s, [])

/-! ## Model of `handleFunctionCalls` reconnection supervisor (`server.js` 723-904)

The closure `connect()` wires one WebSocket; its `open` handler resets
`reconnectAttempts` to 0, its `error` and `close` handlers either schedule a
reconnect after `min(1000 * 2^(reconnectAttempts - 1), 5000)` ms (after
incrementing the counter, while it is below `maxReconnectAttempts = 3`) or
settle the surrounding promise (`close` with code 1000 settles it with
`true`; an exhausted counter settles it with `false`).  A connection's fate
is a script of events; the run feeds successive scripts to successive
(re)connections. -/

inductive ConnEvent where
  | wsOpen
  | wsError
  | wsClose (code : Nat)
deriving DecidableEq

structure FSState where
  reconnectAttempts : Nat
  resolved : Option Bool
  backoffs : List Nat
  pending : Nat
deriving DecidableEq

def maxReconnectAttempts : Nat := 3

/-- Model of `Math.min(1000 * Math.pow(2, reconnectAttempts - 1), 5000)`, evaluated
after the counter was incremented to `attempt`. -/
def backoffMs (attempt : Nat) : Nat :=
  min (1000 * 2 ^ (attempt - 1)) 5000

/-- A promise settles only once; later `resolve` calls are ignored. -/
def resolveOnce (s : FSState) (b : Bool) : FSState :=
  match s.resolved with
  | some _ => s
  | none => { s with resolved := some b }

/-- Bump the counter and schedule a reconnection with the backoff delay. -/
def scheduleReconnect (s : FSState) : FSState :=
  let a := s.reconnectAttempts + 1
  { s with reconnectAttempts := a,
           backoffs := s.backoffs ++ [backoffMs a],
           pending := s.pending + 1 }

/-- One WebSocket event through the `open`/`error`/`close` handlers. -/
def stepEvent (s : FSState) : ConnEvent → FSState
  | ConnEvent.wsOpen => { s with reconnectAttempts := 0 }
  | ConnEvent.wsError =>
      if s.reconnectAttempts < maxReconnectAttempts then scheduleReconnect s
      else resolveOnce s false
  | ConnEvent.wsClose code =>
      if code = 1000 then resolveOnce s true
      else if s.reconnectAttempts < maxReconnectAttempts then scheduleReconnect s
      else resolveOnce s false

/-- Run one connection's event script. -/
def runConn (s : FSState) (script : List ConnEvent) : FSState :=
  script.foldl stepEvent s

/-- Feed scripts to the pending (re)connections in order; stop when no
connection is scheduled or the supplied scripts run out. -/
def runFS : FSState → List (List ConnEvent) → FSState
  | s, [] => s
  | s, sc :: rest =>
    if s.pending = 0 then s
    else runFS (runConn { s with pending := s.pending - 1 } sc) rest

/-- Model of `handleFunctionCalls(callId)`: fresh state, initial `connect()` pending. -/
def functionStreamRun (scripts : List (List ConnEvent)) : FSState :=
  runFS { reconnectAttempts := 0, resolved := none, backoffs := [], pending := 1 } scripts

/-! ## Model of `transferCall` (`lib/callTransfer.js` 10-124)

`getTransferNumber` resolves the destination key against the configured
table (never throws: its file read and JSON parse sit in a `try` that
returns `{}`); an unknown key returns the failure result before any fetch.
The refer fetch outcome is either a response (status, optional
`x-request-id` header, body text) or a network exception; a non-2xx response
raises the descriptive error which the surrounding `catch` converts into a
failure result, so the function always returns a result. The second
component counts outbound fetches. -/

structure TransferInfo where
  name : String
  number : String
deriving DecidableEq

structure FetchResp where
  status : Nat
  requestId : Option String
  bodyText : String
deriving DecidableEq

inductive FetchOutcome where
  | resp (r : FetchResp)
  | netError (msg : String)
deriving DecidableEq

structure TransferResult where
  success : Bool
  message : String
  transferredTo : Option String
deriving DecidableEq

/-- Model of `getTransferNumber(key)`: `numbers[key] || null`. -/
def getTransferNumber (table : List (String × TransferInfo)) (key : String) :
    Option TransferInfo :=
  table.lookup key

/-- The message built for a non-2xx refer response:
`Refer failed (status)[ request-id]: errorText`. -/
def referFailedMessage (r : FetchResp) : String :=
  "Refer failed (" ++ toString r.status ++ ")" ++
    (match r.requestId with
     | some rid => " [request-id=" ++ rid ++ "]"
     | none => "") ++
    ": " ++ r.bodyText

/-- Model of `transferCall(callId, transferKey)` with the destination table and the
refer fetch's outcome supplied by the environment. -/
def transferCall (table : List (String × TransferInfo)) (outcome : FetchOutcome)
    (_callId transferKey : String) : TransferResult × Nat :=
  match getTransferNumber table transferKey with
  | none =>
      ({ success := false,
         message := "Transfer destination \"" ++ transferKey ++ "\" not found",
         transferredTo := none }, 0)
  | some info =>
      match outcome with
      | FetchOutcome.netError m =>
          ({ success := false, message := "Transfer error: " ++ m,
             transferredTo := none }, 1)
      | FetchOutcome.resp r =>
          if respOk r.status then
            ({ success := true, message := "Call transferred to " ++ info.name,
               transferredTo := some info.name }, 1)
          else
            ({ success := false,
               message := "Transfer error: " ++ referFailedMessage r,
               transferredTo := none }, 1)

/-! ## Auxiliary notions used by the statements -/

/-- The event trace of the accept loop when attempts 1 and 2 return 404:
attempt, 500 ms sleep, attempt, 500 ms sleep, attempt. -/
def notReadyTrace : List AcceptEv :=
  [AcceptEv.attempt 1, AcceptEv.wait 500, AcceptEv.attempt 2,
   AcceptEv.wait 500, AcceptEv.attempt 3]

def isAttempt : AcceptEv → Bool
  | AcceptEv.attempt _ => true
  | AcceptEv.wait _ => false

/-- Checks that within a trace every attempt other than a leading one is
immediately preceded by a 500 ms wait. -/
def attemptsWaitPrecededAux : AcceptEv → List AcceptEv → Bool
  | _, [] => true
  | prev, e :: rest =>
    (if isAttempt e then prev == AcceptEv.wait 500 else true) &&
      attemptsWaitPrecededAux e rest

/-- "Each attempt is preceded by a 500 ms wait" as a decidable trace predicate. -/
def attemptsWaitPreceded : List AcceptEv → Bool
  | [] => true
  | e :: rest => (!isAttempt e) && attemptsWaitPrecededAux e rest

/-! ## Concrete instances used to exercise the model -/

/-- A request whose digest (under the instantiated digest function) matches
its signature header. -/
def c1Req : WebhookReq :=
  { webhookId := some "evt", timestamp := some "1",
    signatureHeader := some "v1,evt.1.body", rawBody := "body",
    evType := "realtime.call.incoming", dataCallId := some "c1",
    dataSessionTools := false }

/-- A request with no signature header at all. -/
def c2Req : WebhookReq :=
  { webhookId := some "evt", timestamp := some "1", signatureHeader := none,
    rawBody := "", evType := "realtime.call.ended", dataCallId := some "c1",
    dataSessionTools := false }

/-- A benign environment: every accept fetch answers 200, both WebSockets
reach `open`. -/
def wEnv : Env :=
  { acceptResp := fun _ => 200, greetingOk := true, functionOpenOk := true, now := 0 }

/-- The state of a freshly started process. -/
def wState : ServerState :=
  { greetedCalls := [], activeFunctionHandlers := [], callStates := [] }

/-- A state in which call `c4` already has a live function handler. -/
def s4 : ServerState :=
  { greetedCalls := [], activeFunctionHandlers := ["c4"], callStates := [] }

/-- A verified terminal event (`ended`) for call `c7`, signed under the
constant digest function. -/
def req7 : WebhookReq :=
  { webhookId := some "e", timestamp := some "1", signatureHeader := some "v1,sig",
    rawBody := "", evType := "realtime.call.ended", dataCallId := some "c7",
    dataSessionTools := false }

/-- A state tracking call `c7` as greeted and registered. -/
def s7 : ServerState :=
  { greetedCalls := ["c7"], activeFunctionHandlers := [],
    callStates := [("c7", initialCallState 0)] }

/-- A verified incoming event for call `c10`. -/
def req10 : WebhookReq :=
  { webhookId := some "e", timestamp := some "1", signatureHeader := some "v1,sig",
    rawBody := "", evType := "realtime.call.incoming", dataCallId := some "c10",
    dataSessionTools := false }

/-- A state in which `c10` is live: greeted, handler active, registered. -/
def s10 : ServerState :=
  { greetedCalls := ["c10"], activeFunctionHandlers := ["c10"],
    callStates := [("c10", initialCallState 0)] }

/-- A state in which `c10` is greeted and registered but its function
handler has stopped. -/
def s10b : ServerState :=
  { greetedCalls := ["c10"], activeFunctionHandlers := [],
    callStates := [("c10", initialCallState 0)] }

/-- The configured transfer destinations table used in examples. -/
def wTable : List (String × TransferInfo) :=
  [("sales", { name := "Sales Team", number := "+15550100" }),
   ("support", { name := "Technical Support", number := "+15550101" })]

/-! ## Helper lemmas about the state encodings -/

theorem setAdd_contains (g : List String) (x : String) :
    (setAdd g x).contains x = true := by
  unfold setAdd
  by_cases h : x ∈ g
  · simp [h]
  · simp [h, List.contains_cons]

theorem setDel_not_contains (g : List String) (x : String) :
    (setDel g x).contains x = false := by
  unfold setDel
  induction g with
  | nil => rfl
  | cons a t ih =>
    by_cases h : a = x
    · simp [List.filter, h, ih]
    · have hne : (a != x) = true := by simp [bne, h]
      simp [List.filter, hne, List.contains_cons, ih]
      exact fun hexact => absurd hexact.symm h

theorem setDel_eq_of_not_contains (g : List String) (x : String)
    (h : g.contains x = false) : setDel g x = g := by
  unfold setDel
  induction g with
  | nil => rfl
  | cons a t ih =>
    simp [List.contains_cons] at h
    have hne : (a != x) = true := by simp [bne]; exact fun he => h.1 he.symm
    simp [List.filter, hne, ih (by simp [h.2])]

theorem mapDel_eq_of_not_contains (m : List (String × CallState)) (k : String)
    (h : (mapKeys m).contains k = false) : mapDel m k = m := by
  unfold mapDel
  induction m with
  | nil => rfl
  | cons a t ih =>
    simp [mapKeys, List.contains_cons] at h
    have hne : (a.1 != k) = true := by simp [bne]; exact fun he => h.1 he.symm
    simp [List.filter, hne, ih (by simp [mapKeys, h.2])]

theorem mapKeys_mapSet_contains (m : List (String × CallState)) (k : String)
    (v : CallState) : (mapKeys (mapSet m k v)).contains k = true := by
  simp [mapKeys, mapSet, List.contains_cons]

/-- Fact: `triggerGreeting` touches only `greetedCalls`; the registry map is
untouched on every path. -/
theorem triggerGreeting_callStates (env : Env) (o : Option String) (s : ServerState) :
    (triggerGreeting env o s).2.1.callStates = s.callStates := by
  unfold triggerGreeting
  match o with
  | none => rfl
  | some cid =>
    by_cases h0 : cid = ""
    · simp [h0]
    · by_cases h1 : cid ∈ s.greetedCalls
      · simp [h0, h1]
      · by_cases h2 : env.greetingOk = true <;> simp [h0, h1, h2]

theorem respOk_404 : respOk 404 = false := rfl

/-- A 2xx on the first attempt: one fetch, no sleep. -/
theorem acceptCall_first_ok (resp : Nat → Nat) (h : respOk (resp 1) = true) :
    acceptCall resp 3 = AcceptResult.ok 1 [AcceptEv.attempt 1] := by
  simp [acceptCall, acceptGo, h]

/-- Not-ready on every attempt: three fetches, sleeps only between them. -/
theorem acceptCall_all_notReady (resp : Nat → Nat)
    (h1 : resp 1 = 404) (h2 : resp 2 = 404) (h3 : resp 3 = 404) :
    acceptCall resp 3 = AcceptResult.err 404 notReadyTrace := by
  simp [acceptCall, acceptGo, h1, h2, h3, respOk_404, notReadyTrace]

/-- Not-ready twice, then success on the third attempt. -/
theorem acceptCall_third_ok (resp : Nat → Nat)
    (h1 : resp 1 = 404) (h2 : resp 2 = 404) (h3 : respOk (resp 3) = true) :
    acceptCall resp 3 = AcceptResult.ok 3 notReadyTrace := by
  simp [acceptCall, acceptGo, h1, h2, h3, respOk_404, notReadyTrace]

/-- Any first-attempt failure other than 404 is fatal immediately. -/
theorem acceptCall_fatal_first (resp : Nat → Nat) (st : Nat)
    (h1 : resp 1 = st) (hok : respOk st = false) (hne : st ≠ 404) :
    acceptCall resp 3 = AcceptResult.err st [AcceptEv.attempt 1] := by
  simp [acceptCall, acceptGo, h1, hok, hne]

/-- Triggers that find the greeted flag already set all skip and leave the
set unchanged. -/
theorem runTriggers_of_contains (cid : String) (g : List String) (n : Nat)
    (hcid : cid ≠ "") (hg : g.contains cid = true) :
    runTriggers (some cid) n g = (List.replicate n GreetPhase.skipAlready, g) := by
  have hg2 : cid ∈ g := by simpa using hg
  induction n with
  | zero => simp [runTriggers]
  | succ n ih =>
    simp [runTriggers, greetingCheckAndSet, hcid, hg2, ih, List.replicate]

/-- From a fresh set, the first trigger proceeds and every later one skips. -/
theorem runTriggers_fresh (cid : String) (g : List String) (n : Nat)
    (hcid : cid ≠ "") (hg : g.contains cid = false) :
    runTriggers (some cid) (n + 1) g =
      (GreetPhase.proceed :: List.replicate n GreetPhase.skipAlready, setAdd g cid) := by
  have hg2 : ¬ cid ∈ g := by simpa using hg
  have h2 := runTriggers_of_contains cid (setAdd g cid) n hcid (setAdd_contains g cid)
  simp [runTriggers, greetingCheckAndSet, hcid, hg2, h2]

/-! ## Claim theorems -/

/-- C1: with the three headers present and a configured secret, signature
verification succeeds iff the keyed digest of
`webhookId ++ "." ++ timestamp ++ "." ++ rawBody` — computed with the secret
obtained by stripping the `whsec_` prefix and base64-decoding — appears
among the signature values parsed from the space-separated header; and for
any change of the body whose digest differs from the original's (which is
what changing a single byte does to an HMAC-SHA256 digest), a header whose
parsed values all equal the original body's digest no longer verifies. -/
theorem webhook_signature_characterization
    (hmacB64 : List Nat → String → String) (secretEnv : Option String) (req : WebhookReq)
    (hsig : headerPresent req.signatureHeader = true)
    (hts : headerPresent req.timestamp = true)
    (hwid : headerPresent req.webhookId = true)
    (hsec : secretStringOf secretEnv ≠ "") :
    (verifySignature hmacB64 secretEnv req = true ↔
      (parseSigs (req.signatureHeader.getD "")).contains
        (hmacB64 (base64Decode (secretStringOf secretEnv))
          (mkPayload (req.webhookId.getD "") (req.timestamp.getD "") req.rawBody)) = true)
    ∧ (∀ body2 : String,
        (∀ d ∈ parseSigs (req.signatureHeader.getD ""),
          d = hmacB64 (base64Decode (secretStringOf secretEnv))
                (mkPayload (req.webhookId.getD "") (req.timestamp.getD "") req.rawBody)) →
        hmacB64 (base64Decode (secretStringOf secretEnv))
            (mkPayload (req.webhookId.getD "") (req.timestamp.getD "") body2) ≠
          hmacB64 (base64Decode (secretStringOf secretEnv))
            (mkPayload (req.webhookId.getD "") (req.timestamp.getD "") req.rawBody) →
        verifySignature hmacB64 secretEnv { req with rawBody := body2 } = false) := by
  constructor
  · simp [verifySignature, hsig, hts, hwid, hsec]
  · intro body2 hall hne
    have hred : verifySignature hmacB64 secretEnv { req with rawBody := body2 } =
        (parseSigs (req.signatureHeader.getD "")).contains
          (hmacB64 (base64Decode (secretStringOf secretEnv))
            (mkPayload (req.webhookId.getD "") (req.timestamp.getD "") body2)) := by
      simp [verifySignature, hsig, hts, hwid, hsec]
    rw [hred]
    simp only [List.contains_eq_any_beq, List.any_eq_false, beq_iff_eq]
    intro d hmem heq
    exact hne (heq ▸ hall d hmem)

/-- C1 witness: a concrete request verifies through its matching digest, and
a one-byte body change (`body` to `bodx`) makes verification fail. -/
theorem webhook_signature_characterization_witness :
    verifySignature (fun _ p => p) (some "whsec_QQ==") c1Req = true
    ∧ verifySignature (fun _ p => p) (some "whsec_QQ==")
        { c1Req with rawBody := "bodx" } = false := by
  have h := webhook_signature_characterization (fun _ p => p) (some "whsec_QQ==") c1Req
    (by decide) (by decide) (by decide) (by decide)
  exact ⟨h.1.mpr (by decide), h.2 "bodx" (by decide) (by decide)⟩

/-- C2: a missing header or an unconfigured secret makes verification fail,
and every request failing verification gets a 401 with no state mutation and
no outbound action. -/
theorem webhook_rejects_unauthenticated
    (hmacB64 : List Nat → String → String) (secretEnv : Option String)
    (env : Env) (req : WebhookReq) (s : ServerState) :
    ((headerPresent req.webhookId = false ∨ headerPresent req.timestamp = false ∨
        headerPresent req.signatureHeader = false ∨ secretStringOf secretEnv = "") →
      verifySignature hmacB64 secretEnv req = false)
    ∧ (verifySignature hmacB64 secretEnv req = false →
        openaiWebhook hmacB64 secretEnv env req s = (⟨401, "invalid signature"⟩, s, [])) := by
  constructor
  · intro h
    rcases h with h | h | h | h
    · simp [verifySignature, h]
    · simp [verifySignature, h]
    · simp [verifySignature, h]
    · simp [verifySignature, h]
  · intro h
    simp [openaiWebhook, h]

/-- C2 witness: a request lacking the signature header is answered 401 and
leaves the fresh state untouched with no outbound action. -/
theorem webhook_rejects_unauthenticated_witness :
    openaiWebhook (fun _ p => p) (some "whsec_QQ==") wEnv c2Req wState =
      (⟨401, "invalid signature"⟩, wState, []) := by
  have h := webhook_rejects_unauthenticated (fun _ p => p) (some "whsec_QQ==") wEnv c2Req wState
  exact h.2 (h.1 (Or.inr (Or.inr (Or.inl (by decide)))))

/-- A live handler makes `startFunctionHandler` return immediately. -/
theorem startFunctionHandler_active (env : Env) (cid : String) (s : ServerState)
    (hcid : cid ≠ "") (h : s.activeFunctionHandlers.contains cid = true) :
    startFunctionHandler env (some cid) s = (s, []) := by
  have hmem : cid ∈ s.activeFunctionHandlers := by simpa using h
  simp [startFunctionHandler, hcid, hmem]

/-- Launching for a fresh callId records the handler, opens one stream, and
leaves the greeted set alone. -/
theorem startFunctionHandler_fresh (env : Env) (cid : String) (s : ServerState)
    (hcid : cid ≠ "") (h : s.activeFunctionHandlers.contains cid = false) :
    (startFunctionHandler env (some cid) s).1.activeFunctionHandlers =
        setAdd s.activeFunctionHandlers cid
    ∧ (startFunctionHandler env (some cid) s).1.greetedCalls = s.greetedCalls
    ∧ (startFunctionHandler env (some cid) s).2 = [Action.functionStreamOpen cid] := by
  have hmem : ¬ cid ∈ s.activeFunctionHandlers := by simpa using h
  by_cases ho : env.functionOpenOk = true <;>
    simp [startFunctionHandler, hcid, hmem, ho]

/-- C3: for a call not yet greeted, any number `n ≥ 2` of greeting triggers
fired in the same tick produce exactly one `proceed` (the first), the rest
observing the flag already true and returning success without connecting;
the connecting trigger sets the flag before the connection attempt; and a
connection failure rolls the flag back so a later trigger proceeds again. -/
theorem greeting_dispatched_at_most_once (env : Env) (cid : String) (g : List String)
    (s : ServerState) (n : Nat)
    (hcid : cid ≠ "") (hn : 2 ≤ n) (hg : g.contains cid = false)
    (hs : s.greetedCalls.contains cid = false) :
    (runTriggers (some cid) n g).1 =
        GreetPhase.proceed :: List.replicate (n - 1) GreetPhase.skipAlready
    ∧ (runTriggers (some cid) n g).1.count GreetPhase.proceed = 1
    ∧ (runTriggers (some cid) n g).2.contains cid = true
    ∧ (∀ s2 : ServerState, s2.greetedCalls.contains cid = true →
        triggerGreeting env (some cid) s2 = (GreetingOutcome.alreadyGreeted, s2, []))
    ∧ (env.greetingOk = true →
        triggerGreeting env (some cid) s =
          (GreetingOutcome.sent, { s with greetedCalls := setAdd s.greetedCalls cid },
            [Action.greetingConnect cid]))
    ∧ (env.greetingOk = false →
        (triggerGreeting env (some cid) s).1 = GreetingOutcome.failed
        ∧ (triggerGreeting env (some cid) s).2.1.greetedCalls.contains cid = false
        ∧ (triggerGreeting env (some cid) s).2.2 = [Action.greetingConnect cid]
        ∧ (greetingCheckAndSet (some cid)
            (triggerGreeting env (some cid) s).2.1.greetedCalls).1 = GreetPhase.proceed) := by
  obtain ⟨m, rfl⟩ : ∃ m, n = m + 1 := ⟨n - 1, by omega⟩
  have hfresh := runTriggers_fresh cid g m hcid hg
  have hsmem : ¬ cid ∈ s.greetedCalls := by simpa using hs
  refine ⟨?_, ?_, ?_, ?_, ?_, ?_⟩
  · rw [hfresh]
    simp
  · rw [hfresh]
    simp [List.count_cons, List.count_replicate]
  · rw [hfresh]
    exact setAdd_contains g cid
  · intro s2 h2
    have h2m : cid ∈ s2.greetedCalls := by simpa using h2
    simp [triggerGreeting, hcid, h2m]
  · intro ho
    simp [triggerGreeting, hcid, hsmem, ho]
  · intro ho
    have hng : env.greetingOk ≠ true := by simp [ho]
    refine ⟨?_, ?_, ?_, ?_⟩
    · simp [triggerGreeting, hcid, hsmem, hng]
    · simp only [triggerGreeting, hcid, hsmem, hng]
      simp [hcid, hsmem]
      simpa using setDel_not_contains (setAdd s.greetedCalls cid) cid
    · simp [triggerGreeting, hcid, hsmem, hng]
    · have hdel := setDel_not_contains (setAdd s.greetedCalls cid) cid
      have hdm : ¬ cid ∈ setDel (setAdd s.greetedCalls cid) cid := by simpa using hdel
      simp [triggerGreeting, hcid, hsmem, hng, greetingCheckAndSet, hdm]

/-- C3 witness: two same-tick triggers for fresh call `c1`: the first
proceeds, the second skips, and exactly one proceed occurs. -/
theorem greeting_dispatched_at_most_once_witness :
    (runTriggers (some "c1") 2 []).1 =
        GreetPhase.proceed :: List.replicate (2 - 1) GreetPhase.skipAlready
    ∧ (runTriggers (some "c1") 2 []).1.count GreetPhase.proceed = 1 := by
  have h := greeting_dispatched_at_most_once wEnv "c1" [] wState 2
    (by decide) (by decide) (by decide) (by decide)
  exact ⟨h.1, h.2.1⟩

/-- C4: opening the function stream is idempotent per callId — an active
handler makes a second open return immediately with no new connection, two
back-to-back opens yield exactly one stream-open action, and a verified
session-updated event for an already-active call is acknowledged with no
state change and no action. -/
theorem functionHandler_idempotent (env : Env) (cid : String) (s : ServerState)
    (hcid : cid ≠ "") :
    (s.activeFunctionHandlers.contains cid = true →
        startFunctionHandler env (some cid) s = (s, []))
    ∧ (s.activeFunctionHandlers.contains cid = false →
        (startFunctionHandler env (some cid) s).2 = [Action.functionStreamOpen cid]
        ∧ (startFunctionHandler env (some cid) s).1.activeFunctionHandlers.contains cid = true
        ∧ startFunctionHandler env (some cid) (startFunctionHandler env (some cid) s).1 =
            ((startFunctionHandler env (some cid) s).1, [])
        ∧ ((startFunctionHandler env (some cid) s).2 ++
              (startFunctionHandler env (some cid)
                (startFunctionHandler env (some cid) s).1).2).count
            (Action.functionStreamOpen cid) = 1)
    ∧ (∀ (hmacB64 : List Nat → String → String) (secretEnv : Option String)
          (req : WebhookReq),
        verifySignature hmacB64 secretEnv req = true →
        req.evType = "realtime.session.updated" →
        req.dataCallId = some cid → req.dataSessionTools = true →
        s.activeFunctionHandlers.contains cid = true →
        openaiWebhook hmacB64 secretEnv env req s = (⟨200, "ok"⟩, s, [])) := by
  refine ⟨?_, ?_, ?_⟩
  · intro h
    exact startFunctionHandler_active env cid s hcid h
  · intro h
    obtain ⟨hact, hgr, htr⟩ := startFunctionHandler_fresh env cid s hcid h
    have hc2 : (startFunctionHandler env (some cid) s).1.activeFunctionHandlers.contains
        cid = true := by
      rw [hact]
      exact setAdd_contains s.activeFunctionHandlers cid
    have hsecond := startFunctionHandler_active env cid
      (startFunctionHandler env (some cid) s).1 hcid hc2
    refine ⟨htr, hc2, hsecond, ?_⟩
    rw [htr, hsecond]
    simp
  · intro hmacB64 secretEnv req hv ht hd htools ha
    have hne1 : ¬ req.evType = "realtime.call.incoming" := by
      rw [ht]; decide
    have hne2 : ¬ "realtime.session.updated" ∈ cleanupEvents := by decide
    have hstart := startFunctionHandler_active env cid s hcid ha
    simp [openaiWebhook, hv, ht, hd, htools, hne1, hne2, hstart]

/-- C4 witness: with call `c4` already active, a second open request returns
at once with no action. -/
theorem functionHandler_idempotent_witness :
    startFunctionHandler wEnv (some "c4") s4 = (s4, []) :=
  (functionHandler_idempotent wEnv "c4" s4 (by decide)).1 (by decide)

/-- A fresh launch with a connecting stream installs the registry entry. -/
theorem startFunctionHandler_fresh_open (env : Env) (cid : String) (s : ServerState)
    (hcid : cid ≠ "") (h : s.activeFunctionHandlers.contains cid = false)
    (ho : env.functionOpenOk = true) :
    (startFunctionHandler env (some cid) s).1.callStates =
      mapSet s.callStates cid (initialCallState env.now) := by
  have hmem : ¬ cid ∈ s.activeFunctionHandlers := by simpa using h
  simp [startFunctionHandler, hcid, hmem, ho]

/-- C5 counterexample: with every accept fetch answering 404 and the default
3 retries, exactly 3 attempts occur before giving up, but only two 500 ms
waits happen and the first attempt is preceded by no wait at all — refuting
"exactly 3 attempts occur, each preceded by a 500ms wait". -/
theorem acceptCall_first_attempt_unwaited :
    acceptCall (fun _ => 404) 3 = AcceptResult.err 404 notReadyTrace
    ∧ (notReadyTrace.filter isAttempt).length = 3
    ∧ notReadyTrace.count (AcceptEv.wait 500) = 2
    ∧ attemptsWaitPreceded notReadyTrace = false := by decide

/-- C5 amended: when accept keeps returning 404, exactly 3 attempts occur
with a 500 ms wait before each of attempts 2 and 3 (none before the first)
and the call then fails; not-ready twice then success reaches `Active`
(HTTP 200, registry entry present); any first failure other than 404 is
fatal after a single attempt, answered 500 with the call never placed in
`Active` (state unchanged). -/
theorem accept_retry_policy :
    (acceptCall (fun _ => 404) 3 = AcceptResult.err 404 notReadyTrace)
    ∧ (∀ resp : Nat → Nat, resp 1 = 404 → resp 2 = 404 → respOk (resp 3) = true →
        acceptCall resp 3 = AcceptResult.ok 3 notReadyTrace)
    ∧ (∀ (resp : Nat → Nat) (st : Nat), resp 1 = st → respOk st = false → st ≠ 404 →
        acceptCall resp 3 = AcceptResult.err st [AcceptEv.attempt 1])
    ∧ (∀ (hmacB64 : List Nat → String → String) (secretEnv : Option String)
          (env : Env) (req : WebhookReq) (s : ServerState) (cid : String),
        verifySignature hmacB64 secretEnv req = true →
        req.evType = "realtime.call.incoming" → req.dataCallId = some cid →
        respOk (env.acceptResp 1) = false → env.acceptResp 1 ≠ 404 →
        openaiWebhook hmacB64 secretEnv env req s =
          (⟨500, "Accept failed"⟩, s, [Action.acceptAttempt cid 1]))
    ∧ (∀ (hmacB64 : List Nat → String → String) (secretEnv : Option String)
          (env : Env) (req : WebhookReq) (s : ServerState) (cid : String),
        verifySignature hmacB64 secretEnv req = true →
        req.evType = "realtime.call.incoming" → req.dataCallId = some cid →
        env.acceptResp 1 = 404 → env.acceptResp 2 = 404 → respOk (env.acceptResp 3) = true →
        env.functionOpenOk = true → s.activeFunctionHandlers.contains cid = false →
        cid ≠ "" →
        (openaiWebhook hmacB64 secretEnv env req s).1 = ⟨200, "ok"⟩
        ∧ (mapKeys (openaiWebhook hmacB64 secretEnv env req s).2.1.callStates).contains
            cid = true) := by
  refine ⟨?_, ?_, ?_, ?_, ?_⟩
  · exact acceptCall_all_notReady (fun _ => 404) rfl rfl rfl
  · intro resp h1 h2 h3
    exact acceptCall_third_ok resp h1 h2 h3
  · intro resp st h1 hok hne
    exact acceptCall_fatal_first resp st h1 hok hne
  · intro hmacB64 secretEnv env req s cid hv ht hd hok hne
    have hacc := acceptCall_fatal_first env.acceptResp (env.acceptResp 1) rfl hok hne
    simp [openaiWebhook, hv, ht, handleIncomingCall, hd, hacc, acceptTraceActions]
  · intro hmacB64 secretEnv env req s cid hv ht hd h1 h2 h3 ho ha hcid
    have hacc := acceptCall_third_ok env.acceptResp h1 h2 h3
    have hred : (openaiWebhook hmacB64 secretEnv env req s).2.1 =
        (triggerGreeting env (some cid)
          (startFunctionHandler env (some cid) s).1).2.1 ∧
        (openaiWebhook hmacB64 secretEnv env req s).1 = ⟨200, "ok"⟩ := by
      simp [openaiWebhook, hv, ht, handleIncomingCall, hd, hacc]
    refine ⟨hred.2, ?_⟩
    rw [hred.1, triggerGreeting_callStates,
      startFunctionHandler_fresh_open env cid s hcid ha ho]
    exact mapKeys_mapSet_contains s.callStates cid (initialCallState env.now)

/-- C5 witness: two not-ready answers then a 200 succeed on the third
attempt with the two inter-attempt waits. -/
theorem accept_retry_policy_witness :
    acceptCall (fun n => if n ≤ 2 then 404 else 200) 3 =
      AcceptResult.ok 3 notReadyTrace :=
  accept_retry_policy.2.1 (fun n => if n ≤ 2 then 404 else 200)
    (by decide) (by decide) (by decide)

/-- Each opened-then-abnormally-closed connection resets the counter on open
and leaves exactly one reconnection scheduled: the supervisor loops forever
on such connections. -/
theorem runFS_openClose_inv (n : Nat) (bs : List Nat) :
    runFS { reconnectAttempts := 1, resolved := none, backoffs := bs, pending := 1 }
        (List.replicate n [ConnEvent.wsOpen, ConnEvent.wsClose 1006]) =
      { reconnectAttempts := 1, resolved := none,
        backoffs := bs ++ List.replicate n 1000, pending := 1 } := by
  induction n generalizing bs with
  | zero => simp [runFS]
  | succ n ih =>
    have hstep : runConn
        { reconnectAttempts := 1, resolved := none, backoffs := bs, pending := 0 }
        [ConnEvent.wsOpen, ConnEvent.wsClose 1006] =
        { reconnectAttempts := 1, resolved := none, backoffs := bs ++ [1000],
          pending := 1 } := by
      simp [runConn, stepEvent, scheduleReconnect, resolveOnce,
        maxReconnectAttempts, backoffMs]
    rw [List.replicate_succ]
    simp only [runFS]
    rw [if_neg (by decide : ¬ (1 : Nat) = 0)]
    simp only [Nat.sub_self]
    rw [hstep, ih (bs ++ [1000])]
    simp [List.replicate_succ]

/-- C6 counterexample: three consecutive abnormal closes (of connections
that never opened) do not end the stream — the third schedules one more
reconnection, so a 4th connection attempt is pending and the promise is
unresolved; the delays so far are 1000, 2000, 4000 ms. -/
theorem functionStream_fourth_attempt_scheduled :
    (functionStreamRun (List.replicate 3 [ConnEvent.wsClose 1006])).resolved = none
    ∧ (functionStreamRun (List.replicate 3 [ConnEvent.wsClose 1006])).pending = 1
    ∧ (functionStreamRun (List.replicate 3 [ConnEvent.wsClose 1006])).backoffs =
        [1000, 2000, 4000] := by decide

/-- C6 amended: reconnection delays double from the 1000 ms base (capped at
5000 ms) per attempt; with max-attempts = 3, the stream ends permanently on
the 4th consecutive abnormal close — after the three reconnection attempts
are exhausted — with no further attempt scheduled; a normal-closure code
(1000) ends the stream with no reconnection; and the attempt counter is
reset to 0 on each successful open, so connections that open before closing
abnormally never exhaust the attempt budget. -/
theorem functionStream_reconnect_policy :
    (∀ code : Nat, code ≠ 1000 →
        functionStreamRun (List.replicate 4 [ConnEvent.wsClose code]) =
          { reconnectAttempts := 3, resolved := some false,
            backoffs := [1000, 2000, 4000], pending := 0 })
    ∧ functionStreamRun [[ConnEvent.wsClose 1000]] =
        { reconnectAttempts := 0, resolved := some true, backoffs := [], pending := 0 }
    ∧ (∀ n : Nat,
        (functionStreamRun
          (List.replicate n [ConnEvent.wsOpen, ConnEvent.wsClose 1006])).resolved = none
        ∧ (functionStreamRun
            (List.replicate n
              [ConnEvent.wsOpen, ConnEvent.wsClose 1006])).reconnectAttempts ≤ 1) := by
  refine ⟨?_, ?_, ?_⟩
  · intro code hc
    simp [functionStreamRun, runFS, runConn, stepEvent, scheduleReconnect,
      resolveOnce, maxReconnectAttempts, backoffMs, hc, List.replicate]
  · decide
  · intro n
    match n with
    | 0 => exact ⟨rfl, by decide⟩
    | Nat.succ m =>
      have hstep : runConn
          { reconnectAttempts := 0, resolved := none, backoffs := [], pending := 0 }
          [ConnEvent.wsOpen, ConnEvent.wsClose 1006] =
          { reconnectAttempts := 1, resolved := none, backoffs := [1000],
            pending := 1 } := by
        simp [runConn, stepEvent, scheduleReconnect, resolveOnce,
          maxReconnectAttempts, backoffMs]
      have hrun : functionStreamRun
          (List.replicate (m + 1) [ConnEvent.wsOpen, ConnEvent.wsClose 1006]) =
          { reconnectAttempts := 1, resolved := none,
            backoffs := [1000] ++ List.replicate m 1000, pending := 1 } := by
        rw [List.replicate_succ]
        simp only [functionStreamRun, runFS]
        rw [if_neg (by decide : ¬ (1 : Nat) = 0)]
        simp only [Nat.sub_self]
        rw [hstep, runFS_openClose_inv m [1000]]
      rw [hrun]
      exact ⟨rfl, Nat.le.refl⟩

/-- C6 witness: four consecutive abnormal closes with code 1006 end the
stream after the doubling delays 1000, 2000, 4000 ms, with nothing pending. -/
theorem functionStream_reconnect_policy_witness :
    functionStreamRun (List.replicate 4 [ConnEvent.wsClose 1006]) =
      { reconnectAttempts := 3, resolved := some false,
        backoffs := [1000, 2000, 4000], pending := 0 } :=
  functionStream_reconnect_policy.1 1006 (by decide)

/-- C7: every verified terminal control event removes the call's registry
entry and greeted mark and is answered 200 "ok"; for a callId not tracked at
all, the handling is a state-preserving no-op still answered 200. -/
theorem terminal_event_cleanup (hmacB64 : List Nat → String → String)
    (secretEnv : Option String) (env : Env) (req : WebhookReq)
    (s : ServerState) (cid : String)
    (hv : verifySignature hmacB64 secretEnv req = true)
    (ht : req.evType ∈ cleanupEvents)
    (hd : req.dataCallId = some cid) :
    openaiWebhook hmacB64 secretEnv env req s =
      (⟨200, "ok"⟩,
        { s with greetedCalls := setDel s.greetedCalls cid,
                 callStates := mapDel s.callStates cid }, [])
    ∧ (s.greetedCalls.contains cid = false →
        (mapKeys s.callStates).contains cid = false →
        openaiWebhook hmacB64 secretEnv env req s = (⟨200, "ok"⟩, s, [])) := by
  have hmain : openaiWebhook hmacB64 secretEnv env req s =
      (⟨200, "ok"⟩,
        { s with greetedCalls := setDel s.greetedCalls cid,
                 callStates := mapDel s.callStates cid }, []) := by
    simp only [cleanupEvents, List.mem_cons, List.not_mem_nil, or_false] at ht
    rcases ht with h | h | h | h <;>
      simp [openaiWebhook, hv, h, hd, cleanupEvents]
  refine ⟨hmain, ?_⟩
  intro h1 h2
  rw [hmain, setDel_eq_of_not_contains s.greetedCalls cid h1,
    mapDel_eq_of_not_contains s.callStates cid h2]

/-- C7 witness: an `ended` event for tracked call `c7` removes its marks; the
same event against the empty state is a pure 200 no-op. -/
theorem terminal_event_cleanup_witness :
    openaiWebhook (fun _ _ => "sig") (some "whsec_QQ==") wEnv req7 s7 =
      (⟨200, "ok"⟩,
        { s7 with greetedCalls := setDel s7.greetedCalls "c7",
                  callStates := mapDel s7.callStates "c7" }, [])
    ∧ openaiWebhook (fun _ _ => "sig") (some "whsec_QQ==") wEnv req7 wState =
      (⟨200, "ok"⟩, wState, []) := by
  refine ⟨(terminal_event_cleanup (fun _ _ => "sig") (some "whsec_QQ==") wEnv req7 s7 "c7"
    (by decide) (by decide) rfl).1, ?_⟩
  exact (terminal_event_cleanup (fun _ _ => "sig") (some "whsec_QQ==") wEnv req7 wState "c7"
    (by decide) (by decide) rfl).2 (by decide) (by decide)

/-- C8: a transfer whose destination key does not resolve returns a failure
result whose message names the key, with zero outbound fetches. -/
theorem transfer_unknown_key_fails_fast (table : List (String × TransferInfo))
    (outcome : FetchOutcome) (callId key : String)
    (h : getTransferNumber table key = none) :
    transferCall table outcome callId key =
      ({ success := false,
         message := "Transfer destination \"" ++ key ++ "\" not found",
         transferredTo := none }, 0) := by
  simp [transferCall, h]

/-- C8 witness: key `marketing` is absent from the configured table, so the
transfer fails fast with the key named and no fetch issued. -/
theorem transfer_unknown_key_fails_fast_witness :
    transferCall wTable (FetchOutcome.netError "never sent") "call1" "marketing" =
      ({ success := false,
         message := "Transfer destination \"" ++ "marketing" ++ "\" not found",
         transferredTo := none }, 0) :=
  transfer_unknown_key_fails_fast wTable (FetchOutcome.netError "never sent")
    "call1" "marketing" (by decide)

/-- C9: with the key resolved, the transfer result is successful iff the
refer call answered 2xx; a non-2xx answer yields a failure whose message
carries the status and, when present, the request id; a network error yields
a failure result as well — one outbound fetch in every case, and a result is
always returned (the function is total). -/
theorem transfer_requires_positive_ack (table : List (String × TransferInfo))
    (outcome : FetchOutcome) (callId key : String) (info : TransferInfo)
    (h : getTransferNumber table key = some info) :
    ((transferCall table outcome callId key).1.success = true ↔
      ∃ r, outcome = FetchOutcome.resp r ∧ respOk r.status = true)
    ∧ (∀ r, outcome = FetchOutcome.resp r → respOk r.status = true →
        transferCall table outcome callId key =
          ({ success := true, message := "Call transferred to " ++ info.name,
             transferredTo := some info.name }, 1))
    ∧ (∀ r, outcome = FetchOutcome.resp r → respOk r.status = false →
        transferCall table outcome callId key =
          ({ success := false,
             message := "Transfer error: " ++ referFailedMessage r,
             transferredTo := none }, 1))
    ∧ (∀ m, outcome = FetchOutcome.netError m →
        transferCall table outcome callId key =
          ({ success := false, message := "Transfer error: " ++ m,
             transferredTo := none }, 1))
    ∧ (transferCall table outcome callId key).2 = 1 := by
  cases outcome with
  | resp r =>
    by_cases hr : respOk r.status = true
    · refine ⟨?_, ?_, ?_, ?_, ?_⟩
      · simp [transferCall, h, hr]
      · intro r2 he h2
        cases he
        simp [transferCall, h, hr]
      · intro r2 he h2
        cases he
        rw [hr] at h2
        cases h2
      · intro m he
        cases he
      · simp [transferCall, h, hr]
    · have hrf : respOk r.status = false := by
        cases hb : respOk r.status
        · rfl
        · exact absurd hb hr
      refine ⟨?_, ?_, ?_, ?_, ?_⟩
      · simp [transferCall, h, hrf]
      · intro r2 he h2
        cases he
        rw [hrf] at h2
        cases h2
      · intro r2 he h2
        cases he
        simp [transferCall, h, hrf]
      · intro m he
        cases he
      · simp [transferCall, h, hrf]
  | netError m =>
    refine ⟨?_, ?_, ?_, ?_, ?_⟩
    · simp [transferCall, h]
    · intro r2 he h2
      cases he
    · intro r2 he h2
      cases he
    · intro m2 he
      cases he
      simp [transferCall, h]
    · simp [transferCall, h]

/-- C9 witness: a 503 refer answer with request id `r1` produces the failure
message surfacing both, after exactly one fetch. -/
theorem transfer_requires_positive_ack_witness :
    transferCall wTable (FetchOutcome.resp ⟨503, some "r1", "boom"⟩) "call1" "sales" =
      ({ success := false,
         message := "Transfer error: " ++ referFailedMessage ⟨503, some "r1", "boom"⟩,
         transferredTo := none }, 1) :=
  (transfer_requires_positive_ack wTable (FetchOutcome.resp ⟨503, some "r1", "boom"⟩)
      "call1" "sales" { name := "Sales Team", number := "+15550100" }
      (by decide)).2.2.1 ⟨503, some "r1", "boom"⟩ rfl (by decide)

/-- C10: a verified incoming event never checks whether the callId is
already tracked — with the call fully live (greeted, handler active,
registered) the accept handshake still runs (one accept attempt in the
trace) while the handler guard and greeted mark suppress a second stream
and greeting (200, state unchanged); with the handler gone but the call
still greeted and registered, the function stream is relaunched, showing the
launch is deduplicated only by the active-handler guard. -/
theorem incoming_always_reaccepts (hmacB64 : List Nat → String → String)
    (secretEnv : Option String) (env : Env) (req : WebhookReq)
    (s s2 : ServerState) (cid : String)
    (hv : verifySignature hmacB64 secretEnv req = true)
    (ht : req.evType = "realtime.call.incoming")
    (hd : req.dataCallId = some cid)
    (hcid : cid ≠ "")
    (hok : respOk (env.acceptResp 1) = true)
    (hg : s.greetedCalls.contains cid = true)
    (ha : s.activeFunctionHandlers.contains cid = true)
    (hg2 : s2.greetedCalls.contains cid = true)
    (ha2 : s2.activeFunctionHandlers.contains cid = false) :
    openaiWebhook hmacB64 secretEnv env req s =
      (⟨200, "ok"⟩, s, [Action.acceptAttempt cid 1])
    ∧ (openaiWebhook hmacB64 secretEnv env req s2).1 = ⟨200, "ok"⟩
    ∧ (openaiWebhook hmacB64 secretEnv env req s2).2.2 =
        [Action.acceptAttempt cid 1, Action.functionStreamOpen cid] := by
  have hacc := acceptCall_first_ok env.acceptResp hok
  have hgm : cid ∈ s.greetedCalls := by simpa using hg
  refine ⟨?_, ?_⟩
  · have hstart := startFunctionHandler_active env cid s hcid ha
    simp [openaiWebhook, hv, ht, handleIncomingCall, hd, hacc, hstart,
      triggerGreeting, hcid, hgm, acceptTraceActions]
  · obtain ⟨hact, hgr, htr⟩ := startFunctionHandler_fresh env cid s2 hcid ha2
    have hgm2 : cid ∈ (startFunctionHandler env (some cid) s2).1.greetedCalls := by
      rw [hgr]
      simpa using hg2
    constructor <;>
      simp [openaiWebhook, hv, ht, handleIncomingCall, hd, hacc, htr,
        triggerGreeting, hcid, hgm2, acceptTraceActions]

/-- C10 witness: with `c10` fully live, a repeated incoming event re-runs the
accept handshake but opens no second stream and sends no second greeting. -/
theorem incoming_always_reaccepts_witness :
    openaiWebhook (fun _ _ => "sig") (some "whsec_QQ==") wEnv req10 s10 =
      (⟨200, "ok"⟩, s10, [Action.acceptAttempt "c10" 1]) :=
  (incoming_always_reaccepts (fun _ _ => "sig") (some "whsec_QQ==") wEnv req10
    s10 s10b "c10" (by decide) rfl rfl (by decide) (by decide) (by decide)
    (by decide) (by decide) (by decide)).1

end RealtimeApi
